import Mathlib

/-!
Shallow embedding of `lte/gateway/python/magma/enodebd/devices/cavium.py`:
the Cavium device handler (state map, reboot hook), the Cavium wait/disable
admin-enable ACS states, the Cavium TR data model (parameter catalog) and the
Cavium configuration postprocessor.  Collaborator classes that the file
imports but that are not part of the excerpted source (`TrParam`,
`ParameterName`, `EnodebConfiguration`, the transform registries and the
base state machine's `transition`) are modelled from the spec, each marked
`Modelled from the spec:` in its doc comment.
-/

/-- Wire value types of TR parameters (`TrParameterType` in
`data_models/data_model_parameters.py`, not in the excerpt).  Modelled from
the spec: `wireType: enum{STRING,INT,UNSIGNED_INT,BOOLEAN,OBJECT}`. -/
inductive TrParameterType where
  | STRING
  | INT
  | UNSIGNED_INT
  | BOOLEAN
  | OBJECT
  deriving DecidableEq, Repr

/-- Modelled from the spec: the `ParameterDescriptor` tuple of §3,
`(path, flag, wireType, flag)` (`TrParam` in `data_models/data_model.py`,
not in the excerpt).  The second positional field is the one §4.3 reads as
the readability flag ("the Catalog records the admin-enable key as
non-readable/write-only"); the fourth is kept under the spec's name
`isObject`.  `cavium.py` only ever constructs these positionally, so field
names do not affect faithfulness. -/
structure TrParam where
  path : String
  readable : Bool
  ptype : TrParameterType
  isObject : Bool
  deriving DecidableEq, Repr

/-- Modelled from the spec: `ParameterKey` — "an opaque, finite, enumerable
identifier for a configuration attribute", with list-type keys
"parameterized by a 1-based index" (`ParameterName` in
`data_models/data_model_parameters.py`, not in the excerpt).  The Python
numbered names `PLMN_N % i` etc. are modelled as indexed constructors. -/
inductive ParameterName where
  | DEVICE
  | FAP_SERVICE
  | GPS_STATUS
  | GPS_LAT
  | GPS_LONG
  | SW_VERSION
  | DUPLEX_MODE_CAPABILITY
  | BAND_CAPABILITY
  | EARFCNDL
  | EARFCNUL
  | BAND
  | PCI
  | DL_BANDWIDTH
  | UL_BANDWIDTH
  | ADMIN_STATE
  | OP_STATE
  | RF_TX_STATUS
  | CELL_RESERVED
  | CELL_BARRED
  | MME_IP
  | MME_PORT
  | NUM_PLMNS
  | PLMN
  | PLMN_N (i : Nat)
  | PLMN_N_CELL_RESERVED (i : Nat)
  | PLMN_N_ENABLE (i : Nat)
  | PLMN_N_PRIMARY (i : Nat)
  | PLMN_N_PLMNID (i : Nat)
  | TAC
  | IP_SEC_ENABLE
  | PERIODIC_INFORM_INTERVAL
  | PERF_MGMT_ENABLE
  | PERF_MGMT_UPLOAD_INTERVAL
  | PERF_MGMT_UPLOAD_URL
  deriving DecidableEq, Repr

namespace CaviumTrDataModel

/-- `CaviumTrDataModel.DEVICE_PATH`. -/
def DEVICE_PATH : String := "Device."

/-- `CaviumTrDataModel.FAPSERVICE_PATH`. -/
def FAPSERVICE_PATH : String := DEVICE_PATH ++ "Services.FAPService.1."

/-- The literal entries of the `PARAMETERS` dict of `cavium.py`
(lines 175-233), before the PLMN loop below adds the numbered entries.
A Python dict with pairwise-distinct keys is embedded as the association
list of its insertions. -/
def baseParameters : List (ParameterName × TrParam) := [
  (.DEVICE, ⟨DEVICE_PATH, true, .OBJECT, false⟩),
  (.FAP_SERVICE, ⟨FAPSERVICE_PATH, true, .OBJECT, false⟩),
  (.GPS_STATUS, ⟨DEVICE_PATH ++ "FAP.GPS.ContinuousGPSStatus.GotFix", true, .BOOLEAN, false⟩),
  (.GPS_LAT, ⟨DEVICE_PATH ++ "FAP.GPS.LockedLatitude", true, .INT, false⟩),
  (.GPS_LONG, ⟨DEVICE_PATH ++ "FAP.GPS.LockedLongitude", true, .INT, false⟩),
  (.SW_VERSION, ⟨DEVICE_PATH ++ "DeviceInfo.SoftwareVersion", true, .STRING, false⟩),
  (.DUPLEX_MODE_CAPABILITY, ⟨FAPSERVICE_PATH ++ "Capabilities.LTE.DuplexMode", true, .STRING, false⟩),
  (.BAND_CAPABILITY, ⟨FAPSERVICE_PATH ++ "Capabilities.LTE.BandsSupported", true, .UNSIGNED_INT, false⟩),
  (.EARFCNDL, ⟨FAPSERVICE_PATH ++ "CellConfig.LTE.RAN.RF.EARFCNDL", true, .UNSIGNED_INT, false⟩),
  (.EARFCNUL, ⟨FAPSERVICE_PATH ++ "CellConfig.LTE.RAN.RF.EARFCNUL", true, .UNSIGNED_INT, false⟩),
  (.BAND, ⟨FAPSERVICE_PATH ++ "CellConfig.LTE.RAN.RF.FreqBandIndicator", true, .UNSIGNED_INT, false⟩),
  (.PCI, ⟨FAPSERVICE_PATH ++ "CellConfig.LTE.RAN.RF.PhyCellID", true, .STRING, false⟩),
  (.DL_BANDWIDTH, ⟨FAPSERVICE_PATH ++ "CellConfig.LTE.RAN.RF.DLBandwidth", true, .STRING, false⟩),
  (.UL_BANDWIDTH, ⟨FAPSERVICE_PATH ++ "CellConfig.LTE.RAN.RF.ULBandwidth", true, .STRING, false⟩),
  (.ADMIN_STATE, ⟨FAPSERVICE_PATH ++ "FAPControl.LTE.AdminState", false, .BOOLEAN, false⟩),
  (.OP_STATE, ⟨FAPSERVICE_PATH ++ "FAPControl.LTE.OpState", true, .BOOLEAN, false⟩),
  (.RF_TX_STATUS, ⟨FAPSERVICE_PATH ++ "FAPControl.LTE.RFTxStatus", true, .BOOLEAN, false⟩),
  (.CELL_RESERVED, ⟨FAPSERVICE_PATH ++ "CellConfig.LTE.RAN.CellRestriction.CellReservedForOperatorUse", true, .BOOLEAN, false⟩),
  (.CELL_BARRED, ⟨FAPSERVICE_PATH ++ "CellConfig.LTE.RAN.CellRestriction.CellBarred", true, .BOOLEAN, false⟩),
  (.MME_IP, ⟨FAPSERVICE_PATH ++ "FAPControl.LTE.Gateway.S1SigLinkServerList", true, .STRING, false⟩),
  (.MME_PORT, ⟨FAPSERVICE_PATH ++ "FAPControl.LTE.Gateway.S1SigLinkPort", true, .UNSIGNED_INT, false⟩),
  (.NUM_PLMNS, ⟨FAPSERVICE_PATH ++ "CellConfig.LTE.EPC.PLMNListNumberOfEntries", true, .UNSIGNED_INT, false⟩),
  (.PLMN, ⟨FAPSERVICE_PATH ++ "CellConfig.LTE.EPC.PLMNList.", true, .OBJECT, false⟩),
  (.TAC, ⟨FAPSERVICE_PATH ++ "CellConfig.LTE.EPC.TAC", true, .UNSIGNED_INT, false⟩),
  (.IP_SEC_ENABLE, ⟨DEVICE_PATH ++ "IPsec.Enable", false, .BOOLEAN, false⟩),
  (.PERIODIC_INFORM_INTERVAL, ⟨DEVICE_PATH ++ "ManagementServer.PeriodicInformInterval", false, .UNSIGNED_INT, false⟩),
  (.PERF_MGMT_ENABLE, ⟨FAPSERVICE_PATH ++ "PerfMgmt.Config.1.Enable", false, .BOOLEAN, false⟩),
  (.PERF_MGMT_UPLOAD_INTERVAL, ⟨FAPSERVICE_PATH ++ "PerfMgmt.Config.1.PeriodicUploadInterval", false, .UNSIGNED_INT, false⟩),
  (.PERF_MGMT_UPLOAD_URL, ⟨FAPSERVICE_PATH ++ "PerfMgmt.Config.1.URL", false, .STRING, false⟩)
]

/-- `CaviumTrDataModel.NUM_PLMNS_IN_CONFIG` (line 235). -/
def NUM_PLMNS_IN_CONFIG : Nat := 6

/-- The five entries the loop at lines 236-247 of `cavium.py` inserts into
`PARAMETERS` for PLMN index `i` (Python `'%d' % i` becomes `toString i`). -/
def plmnParameters (i : Nat) : List (ParameterName × TrParam) := [
  (.PLMN_N i, ⟨FAPSERVICE_PATH ++ "CellConfig.LTE.EPC.PLMNList." ++ toString i ++ ".", true, .OBJECT, false⟩),
  (.PLMN_N_CELL_RESERVED i, ⟨FAPSERVICE_PATH ++ "CellConfig.LTE.EPC.PLMNList." ++ toString i ++ ".CellReservedForOperatorUse", true, .BOOLEAN, false⟩),
  (.PLMN_N_ENABLE i, ⟨FAPSERVICE_PATH ++ "CellConfig.LTE.EPC.PLMNList." ++ toString i ++ ".Enable", true, .BOOLEAN, false⟩),
  (.PLMN_N_PRIMARY i, ⟨FAPSERVICE_PATH ++ "CellConfig.LTE.EPC.PLMNList." ++ toString i ++ ".IsPrimary", true, .BOOLEAN, false⟩),
  (.PLMN_N_PLMNID i, ⟨FAPSERVICE_PATH ++ "CellConfig.LTE.EPC.PLMNList." ++ toString i ++ ".PLMNID", true, .STRING, false⟩)
]

/-- `CaviumTrDataModel.PARAMETERS`: the base dict entries followed by the
numbered PLMN entries for `i` in Python `range(1, NUM_PLMNS_IN_CONFIG + 1)`
(lines 175-247).  All inserted keys are pairwise distinct (proved below), so
the insertion list is a faithful embedding of the resulting dict. -/
def PARAMETERS : List (ParameterName × TrParam) :=
  baseParameters ++ (List.range' 1 NUM_PLMNS_IN_CONFIG).flatMap plmnParameters

/-- `CaviumTrDataModel.get_parameter` (lines 258-260): Python
`cls.PARAMETERS.get(param_name)`, which returns the value for the key or
`None`.  On an association list whose keys are pairwise distinct this is
`List.lookup`. -/
def get_parameter (param_name : ParameterName) : Option TrParam :=
  PARAMETERS.lookup param_name

/-- `CaviumTrDataModel.get_num_plmns` (lines 279-281). -/
def get_num_plmns : Nat := NUM_PLMNS_IN_CONFIG

/-- `CaviumTrDataModel.get_numbered_param_names` (lines 292-304): for each
`i` in `range(1, NUM_PLMNS_IN_CONFIG + 1)` maps the numbered PLMN object key
to its four scalar child keys, in the source's append order. -/
def get_numbered_param_names : List (ParameterName × List ParameterName) :=
  (List.range' 1 NUM_PLMNS_IN_CONFIG).map fun i =>
    (ParameterName.PLMN_N i,
      [ParameterName.PLMN_N_CELL_RESERVED i,
       ParameterName.PLMN_N_ENABLE i,
       ParameterName.PLMN_N_PRIMARY i,
       ParameterName.PLMN_N_PLMNID i])

end CaviumTrDataModel

example : (CaviumTrDataModel.get_parameter .ADMIN_STATE).map TrParam.readable = some false := by decide
example : (CaviumTrDataModel.get_parameter (.PLMN_N 3)).map TrParam.ptype = some .OBJECT := by decide
example : CaviumTrDataModel.get_parameter (.PLMN_N 7) = none := by decide

/-- One ACS state instance as constructed in `CaviumHandler._init_state_map`
(lines 42-63): each constructor records exactly the successor-state-name
arguments (`when_done`, `when_timeout`, `when_get`, ...) the Python
constructor call passes, in order. -/
inductive AcsStateInstance where
  | disconnectedState (when_done : String)
  | sendGetTransientParametersState (when_done : String)
  | waitGetTransientParametersState (when_get when_get_obj_params when_delete when_add when_set when_skip : String)
  | getParametersState (when_done : String)
  | waitGetParametersState (when_done : String)
  | caviumDisableAdminEnableState (when_done : String)
  | caviumWaitDisableAdminEnableState (when_done : String)
  | deleteObjectsState (when_add when_skip : String)
  | addObjectsState (when_done : String)
  | setParameterValuesNotAdminState (when_done : String)
  | waitSetParameterValuesState (when_done : String)
  | sendRebootState (when_done : String)
  | waitRebootResponseState (when_done : String)
  | waitInformMRebootState (when_done when_timeout : String)
  | unexpectedInformState (when_done : String)
  | errorState
  deriving DecidableEq, Repr

/-- The successor state names a state instance was constructed with: the
transition-table targets of that state. -/
def AcsStateInstance.successors : AcsStateInstance → List String
  | .disconnectedState d => [d]
  | .sendGetTransientParametersState d => [d]
  | .waitGetTransientParametersState g go dl a s sk => [g, go, dl, a, s, sk]
  | .getParametersState d => [d]
  | .waitGetParametersState d => [d]
  | .caviumDisableAdminEnableState d => [d]
  | .caviumWaitDisableAdminEnableState d => [d]
  | .deleteObjectsState a sk => [a, sk]
  | .addObjectsState d => [d]
  | .setParameterValuesNotAdminState d => [d]
  | .waitSetParameterValuesState d => [d]
  | .sendRebootState d => [d]
  | .waitRebootResponseState d => [d]
  | .waitInformMRebootState d t => [d, t]
  | .unexpectedInformState d => [d]
  | .errorState => []

namespace CaviumHandler

/-- The dict `self._state_map` built by `CaviumHandler._init_state_map`
(lines 42-63), entry for entry in source order. -/
def state_map : List (String × AcsStateInstance) := [
  ("disconnected", .disconnectedState "get_transient_params"),
  ("get_transient_params", .sendGetTransientParametersState "wait_get_transient_params"),
  ("wait_get_transient_params", .waitGetTransientParametersState "get_params" "get_obj_params" "delete_objs" "add_objs" "set_params" "get_transient_params"),
  ("get_params", .getParametersState "wait_get_parameters"),
  ("wait_get_params", .waitGetParametersState "disable_admin"),
  ("disable_admin", .caviumDisableAdminEnableState "wait_disable_admin"),
  ("wait_disable_admin", .caviumWaitDisableAdminEnableState "delete_objs"),
  ("delete_objs", .deleteObjectsState "add_objs" "set_params"),
  ("add_objs", .addObjectsState "set_params"),
  ("set_params", .setParameterValuesNotAdminState "wait_set_params"),
  ("wait_set_params", .waitSetParameterValuesState "get_transient_params"),
  ("reboot", .sendRebootState "wait_reboot"),
  ("wait_reboot", .waitRebootResponseState "wait_post_reboot_inform"),
  ("wait_post_reboot_inform", .waitInformMRebootState "wait_reboot_delay" "disconnected"),
  ("unexpected_inform", .unexpectedInformState "wait_empty"),
  ("unexpected_fault", .errorState)
]

/-- The keys of the Cavium state map. -/
def stateMapKeys : List String := state_map.map Prod.fst

/-- A Cavium ACS state machine, reduced to the session state the embedded
operations touch: the current state name. -/
structure Machine where
  currentStateName : String
  deriving DecidableEq, Repr

/-- Modelled from the spec: `BasicEnodebAcsStateMachine.transition` (the base
class is not in the excerpt).  Spec §4.1 step 3: "On any transition, set
current state to `nextStateName`; fail fatally (configuration error) if
`nextStateName` is not present in the device-type's transition table." -/
def transition (sm : Machine) (nextStateName : String) : Except String Machine :=
  if (state_map.lookup nextStateName).isSome then
    Except.ok { sm with currentStateName := nextStateName }
  else
    Except.error ("ConfigurationError: unknown state " ++ nextStateName)

/-- `CaviumHandler.reboot_asap` (lines 36-37): `self.transition('reboot')`. -/
def reboot_asap (sm : Machine) : Except String Machine :=
  transition sm "reboot"

end CaviumHandler

example : CaviumHandler.reboot_asap ⟨"wait_set_params"⟩ = Except.ok ⟨"reboot"⟩ := rfl
example : decide (∀ e ∈ CaviumHandler.state_map, ∀ t ∈ e.2.successors, t ∈ CaviumHandler.stateMapKeys) = false := by decide

/-- One entry of a `models.Fault` message's `SetParameterValuesFault` array
(per-parameter fault detail).  Modelled from the spec's message kinds
(`Fault{faultCode, faultString, perParameterFaults?}`); the tr069 `models`
module is not in the excerpt. -/
structure SetParameterValuesFaultStruct where
  ParameterName : String
  FaultCode : String
  FaultString : String
  deriving DecidableEq, Repr

/-- A `models.Fault` message.  Modelled from the spec:
`Fault{faultCode, faultString, perParameterFaults?}`. -/
structure FaultMsg where
  FaultCode : String
  FaultString : String
  SetParameterValuesFault : Option (List SetParameterValuesFaultStruct)
  deriving DecidableEq, Repr

/-- The inbound message kinds `CaviumWaitDisableAdminEnableState.read_msg`
and `CaviumDisableAdminEnableState.read_msg` distinguish (`models.Fault`,
`models.SetParameterValuesResponse` with its `Status` field,
`models.DummyInput`), plus a constructor for every other message kind.
Modelled from the spec's consumed message kinds; the tr069 `models` module
is not in the excerpt. -/
inductive InboundMessage where
  | fault (f : FaultMsg)
  | setParameterValuesResponse (Status : Int)
  | dummyInput
  | otherMessage
  deriving DecidableEq, Repr

/-- `AcsReadMsgResult(msg_handled, next_state)` as used in `cavium.py`. -/
structure AcsReadMsgResult where
  msg_handled : Bool
  next_state : Option String
  deriving DecidableEq, Repr

/-- A raised `Tr069Error`, carrying the message string it was constructed
with. -/
structure Tr069Error where
  message : String
  deriving DecidableEq, Repr

/-- `CaviumWaitDisableAdminEnableState.read_msg` (lines 144-160).  The
Python `raise Tr069Error(...)` becomes `Except.error`; the `%s` / `%d`
formats become string appends (`toString` of an `Int` agrees with Python
`'%d'`).  The `logging.error` calls do not affect the result and are not
modelled.  `done_transition` is the `when_done` the state was constructed
with. -/
def CaviumWaitDisableAdminEnableState.read_msg (done_transition : String)
    (message : InboundMessage) : Except Tr069Error AcsReadMsgResult :=
  match message with
  | .fault f =>
      Except.error ⟨"Received Fault in response to SetParameterValues " ++
        "(faultstring = " ++ f.FaultString ++ ")"⟩
  | .setParameterValuesResponse status =>
      if status ≠ 0 then
        Except.error ⟨"Received SetParameterValuesResponse with " ++
          "Status=" ++ toString status⟩
      else
        Except.ok ⟨true, some done_transition⟩
  | _ => Except.ok ⟨false, none⟩

/-- A `cwmp:ParameterValueStruct` as built in
`CaviumDisableAdminEnableState.get_msg`: `Name`, `Value.type`,
`Value.Data`. -/
structure ParameterValueStruct where
  Name : String
  ValueType : String
  ValueData : String
  deriving DecidableEq, Repr

/-- A `models.SetParameterValues` request as built in
`CaviumDisableAdminEnableState.get_msg`: its `ParameterList.arrayType`
string and `ParameterList.ParameterValueStruct` array. -/
structure SetParameterValuesRequest where
  arrayType : String
  ParameterValueStructList : List ParameterValueStruct
  deriving DecidableEq, Repr

/-- `AcsMsgAndTransition(msg, transition)` as used in `cavium.py`. -/
structure AcsMsgAndTransition where
  msg : SetParameterValuesRequest
  transition_name : Option String
  deriving DecidableEq, Repr

/-- The canonical (magma-side) values that appear in the embedded code:
Python `bool` / `int` / `str`. -/
inductive ConfigValue where
  | b (v : Bool)
  | i (v : Int)
  | s (v : String)
  deriving DecidableEq, Repr

/-- Python `str()` of a `ConfigValue` (`str(False) = "False"`, etc.). -/
def pyStr : ConfigValue → String
  | .b true => "True"
  | .b false => "False"
  | .i v => toString v
  | .s v => v

/-- Modelled from the spec: `DataModel.transform_for_enb` (the base class is
not in the excerpt).  Spec §3: "Keys without a registered transform pass
values through unchanged."  `CaviumTrDataModel.TRANSFORMS_FOR_ENB`
(lines 249-252) registers only the two bandwidth keys, whose transform
function `transform_for_enb.bandwidth` is also outside the excerpt and is
therefore taken as an arbitrary argument `bw`. -/
def CaviumTrDataModel.transform_for_enb (bw : ConfigValue → ConfigValue)
    (param_name : ParameterName) (value : ConfigValue) : ConfigValue :=
  if param_name = .DL_BANDWIDTH ∨ param_name = .UL_BANDWIDTH then bw value
  else value

/-- `CaviumDisableAdminEnableState.get_msg` (lines 109-131): builds a
`SetParameterValues` request setting the `ADMIN_STATE` path to the
device-encoded `False`, with `arrayType` computed from the length of the
single-entry `param_values` dict, and returns it with the state's
`done_transition`.  Python's attribute access `.path` on the
`Optional[TrParam]` crashes on `None`; the embedding returns `none` in that
(unreached) case. -/
def CaviumDisableAdminEnableState.get_msg (bw : ConfigValue → ConfigValue)
    (done_transition : String) : Option AcsMsgAndTransition :=
  match CaviumTrDataModel.get_parameter ParameterName.ADMIN_STATE with
  | none => none
  | some p =>
      let admin_path := p.path
      let admin_value := CaviumTrDataModel.transform_for_enb bw
        ParameterName.ADMIN_STATE (ConfigValue.b false)
      let param_values : List (String × ConfigValue) := [(admin_path, admin_value)]
      let name_value : ParameterValueStruct :=
        ⟨admin_path, "xsd:string", pyStr admin_value⟩
      some ⟨⟨"cwmp:ParameterValueStruct[" ++ toString param_values.length ++ "]",
             [name_value]⟩,
            some done_transition⟩

/-- Modelled from the spec: an `EnodebConfiguration` snapshot — §3's
"ordered mapping `ParameterKey → value`" (the class is not in the excerpt)
— embedded as its insertion-ordered association list, keys pairwise
distinct by construction. -/
def EnodebConfiguration : Type := List (ParameterName × ConfigValue)

/-- Modelled from the spec: `EnodebConfiguration.set_parameter` — a Python
insertion-ordered dict assignment: replace the value of an existing key in
place, otherwise append the new key at the end. -/
def set_parameter (param_name : ParameterName) (value : ConfigValue) :
    List (ParameterName × ConfigValue) → List (ParameterName × ConfigValue)
  | [] => [(param_name, value)]
  | (k, v) :: rest =>
      if k = param_name then (param_name, value) :: rest
      else (k, v) :: set_parameter param_name value rest

/-- Dict lookup on a configuration snapshot. -/
def get_parameter_value (cfg : List (ParameterName × ConfigValue))
    (param_name : ParameterName) : Option ConfigValue :=
  cfg.lookup param_name

/-- `CaviumTrConfigurationInitializer.postprocess` (lines 307-310): sets
`CELL_BARRED` to `True`, then `ADMIN_STATE` to `True`, on the desired
configuration. -/
def CaviumTrConfigurationInitializer.postprocess
    (desired_cfg : List (ParameterName × ConfigValue)) :
    List (ParameterName × ConfigValue) :=
  set_parameter .ADMIN_STATE (.b true)
    (set_parameter .CELL_BARRED (.b true) desired_cfg)

example : CaviumWaitDisableAdminEnableState.read_msg "delete_objs"
    (.setParameterValuesResponse 1) =
    Except.error ⟨"Received SetParameterValuesResponse with Status=1"⟩ := rfl
example : CaviumWaitDisableAdminEnableState.read_msg "delete_objs"
    (.setParameterValuesResponse 0) = Except.ok ⟨true, some "delete_objs"⟩ := rfl
example : CaviumDisableAdminEnableState.get_msg id "wait_disable_admin" =
    some ⟨⟨"cwmp:ParameterValueStruct[1]",
           [⟨"Device.Services.FAPService.1.FAPControl.LTE.AdminState", "xsd:string", "False"⟩]⟩,
          some "wait_disable_admin"⟩ := rfl
example : CaviumTrConfigurationInitializer.postprocess
    [(.CELL_BARRED, .b false), (.TAC, .i 5)] =
    [(.CELL_BARRED, .b true), (.TAC, .i 5), (.ADMIN_STATE, .b true)] := rfl

/-! ### Helper lemmas -/

/-- Whether `needle` is an initial segment of `haystack`. -/
def startsWithChars : List Char → List Char → Bool
  | [], _ => true
  | _ :: _, [] => false
  | a :: s, b :: t => a == b && startsWithChars s t

/-- Whether `needle` occurs verbatim (contiguously) inside `haystack`. -/
def hasSubChars (needle : List Char) : List Char → Bool
  | [] => needle.isEmpty
  | c :: rest => startsWithChars needle (c :: rest) || hasSubChars needle rest

theorem startsWithChars_iff (needle : List Char) :
    ∀ haystack, startsWithChars needle haystack = true ↔ ∃ t, haystack = needle ++ t := by
  induction needle with
  | nil => intro haystack; simp [startsWithChars]
  | cons a s ih =>
      intro haystack
      cases haystack with
      | nil => simp [startsWithChars]
      | cons b t =>
          simp only [startsWithChars, Bool.and_eq_true, beq_iff_eq, ih t, List.cons_append]
          constructor
          · rintro ⟨rfl, u, rfl⟩
            exact ⟨u, rfl⟩
          · rintro ⟨u, h⟩
            injection h with h1 h2
            exact ⟨h1.symm, u, h2⟩

theorem hasSubChars_iff (needle : List Char) :
    ∀ haystack, hasSubChars needle haystack = true ↔
      ∃ p t, haystack = p ++ needle ++ t := by
  intro haystack
  induction haystack with
  | nil =>
      simp only [hasSubChars, List.isEmpty_eq_true]
      constructor
      · rintro rfl; exact ⟨[], [], rfl⟩
      · rintro ⟨p, t, h⟩
        rcases List.append_eq_nil.mp h.symm with ⟨h1, h2⟩
        exact (List.append_eq_nil.mp h1).2
  | cons c rest ih =>
      simp only [hasSubChars, Bool.or_eq_true, startsWithChars_iff, ih]
      constructor
      · rintro (⟨t, h⟩ | ⟨p, t, h⟩)
        · exact ⟨[], t, by simp [h]⟩
        · exact ⟨c :: p, t, by simp [h]⟩
      · rintro ⟨p, t, h⟩
        cases p with
        | nil => exact Or.inl ⟨t, by simpa using h⟩
        | cons a p =>
            injection h with h1 h2
            exact Or.inr ⟨p, t, by simpa using h2⟩

theorem lookup_eq_some_iff_mem {α β : Type} [BEq α] [LawfulBEq α] :
    ∀ {l : List (α × β)}, (l.map Prod.fst).Nodup → ∀ {k : α} {v : β},
      (l.lookup k = some v ↔ (k, v) ∈ l) := by
  intro l
  induction l with
  | nil => intro _ k v; simp [List.lookup]
  | cons e rest ih =>
      intro hnd k v
      obtain ⟨a, b⟩ := e
      simp only [List.map_cons, List.nodup_cons, List.mem_map] at hnd
      obtain ⟨ha, hrest⟩ := hnd
      by_cases hk : k = a
      · subst hk
        simp only [List.lookup_cons_self, List.mem_cons, Option.some_inj]
        constructor
        · rintro rfl; exact Or.inl rfl
        · rintro (h | h)
          · injection h with _ h2; exact h2.symm
          · exact absurd ⟨(k, v), h, rfl⟩ ha
      · have hbeq : (k == a) = false := beq_eq_false_iff_ne.mpr hk
        simp only [List.lookup_cons, hbeq, ih hrest, List.mem_cons]
        constructor
        · exact Or.inr
        · rintro (h | h)
          · exact absurd (congrArg Prod.fst h) hk
          · exact h

theorem lookup_eq_none_iff_not_mem_keys {α β : Type} [BEq α] [LawfulBEq α]
    {l : List (α × β)} {k : α} :
    l.lookup k = none ↔ k ∉ l.map Prod.fst := by
  simp only [List.lookup_eq_none_iff, List.mem_map, bne_iff_ne]
  constructor
  · rintro h ⟨e, he, rfl⟩
    exact h e he rfl
  · intro h e he hk
    exact h ⟨e, he, hk.symm⟩

theorem caviumParameters_keys_nodup :
    (CaviumTrDataModel.PARAMETERS.map Prod.fst).Nodup := by decide

theorem caviumParameters_paths_nodup :
    (CaviumTrDataModel.PARAMETERS.map (fun e => e.2.path)).Nodup := by decide

theorem get_parameter_ADMIN_STATE_eq :
    CaviumTrDataModel.get_parameter .ADMIN_STATE =
      some ⟨"Device.Services.FAPService.1.FAPControl.LTE.AdminState",
            false, .BOOLEAN, false⟩ := by decide

theorem lookup_set_parameter_self (k : ParameterName) (v : ConfigValue) :
    ∀ l : List (ParameterName × ConfigValue),
      (set_parameter k v l).lookup k = some v := by
  intro l
  induction l with
  | nil => simp [set_parameter]
  | cons e rest ih =>
      obtain ⟨a, b⟩ := e
      by_cases ha : a = k
      · subst ha; simp [set_parameter]
      · have hbeq : (k == a) = false := beq_eq_false_iff_ne.mpr (Ne.symm ha)
        simp [set_parameter, ha, List.lookup_cons, hbeq, ih]

theorem lookup_set_parameter_ne (k k' : ParameterName) (v : ConfigValue)
    (hne : k' ≠ k) :
    ∀ l : List (ParameterName × ConfigValue),
      (set_parameter k v l).lookup k' = l.lookup k' := by
  intro l
  have hbeq : (k' == k) = false := beq_eq_false_iff_ne.mpr hne
  induction l with
  | nil => simp [set_parameter, List.lookup_cons, hbeq]
  | cons e rest ih =>
      obtain ⟨a, b⟩ := e
      by_cases ha : a = k
      · subst ha; simp [set_parameter, List.lookup_cons, hbeq]
      · simp [set_parameter, ha, List.lookup_cons, ih]

theorem set_parameter_eq_of_lookup (k : ParameterName) (v : ConfigValue) :
    ∀ l : List (ParameterName × ConfigValue),
      l.lookup k = some v → set_parameter k v l = l := by
  intro l
  induction l with
  | nil => simp [List.lookup]
  | cons e rest ih =>
      obtain ⟨a, b⟩ := e
      by_cases ha : a = k
      · subst ha
        simp only [List.lookup_cons_self, Option.some_inj, set_parameter, if_pos]
        rintro rfl; rfl
      · have hbeq : (k == a) = false := beq_eq_false_iff_ne.mpr (Ne.symm ha)
        simp only [List.lookup_cons, hbeq, cond_false]
        intro h
        simp [set_parameter, ha, ih h]

/-! ### Claims -/

/-- C1: the spec requires that every transition-table target name exist as a
key of the device type's state map.  The dictionary built by
`CaviumHandler._init_state_map` violates this: the `'get_params'` entry
names the successor `'wait_get_parameters'`, which is not a key of the map
(the key is `'wait_get_params'`); the universally quantified no-dangling
invariant is therefore false for the Cavium state map.  (The targets
`'get_obj_params'`, `'wait_reboot_delay'` and `'wait_empty'` are dangling as
well.) -/
theorem caviumStateMap_has_dangling_targets :
    ((CaviumHandler.state_map.lookup "get_params").map AcsStateInstance.successors =
      some ["wait_get_parameters"]) ∧
    "wait_get_parameters" ∉ CaviumHandler.stateMapKeys ∧
    ¬ (∀ e ∈ CaviumHandler.state_map, ∀ t ∈ e.2.successors,
        t ∈ CaviumHandler.stateMapKeys) := by
  refine ⟨rfl, by decide, by decide⟩

/-- C2 (counterexample): `CaviumHandler.reboot_asap` invoked while the
machine sits in the reconciliation state `'wait_set_params'` immediately
moves the machine into the reboot sequence (state `'reboot'`), so the claim
that a force-reboot during an in-progress reconciliation is a no-op or
queued is false. -/
theorem reboot_asap_from_wait_set_params :
    CaviumHandler.reboot_asap ⟨"wait_set_params"⟩ = Except.ok ⟨"reboot"⟩ ∧
    ("wait_set_params" : String) ≠ "reboot" :=
  ⟨rfl, by decide⟩

/-- C2 (amended): `CaviumHandler.reboot_asap` unconditionally and
immediately transitions the machine to the `'reboot'` state, whatever the
current state is — the manual force-reboot is honored from every source
state, including mid-reconciliation. -/
theorem reboot_asap_unconditional_transition (s : String) :
    CaviumHandler.reboot_asap ⟨s⟩ = Except.ok ⟨"reboot"⟩ := rfl

/-- C3: in `CaviumWaitDisableAdminEnableState.read_msg`, every
`SetParameterValuesResponse` with non-zero `Status` raises a `Tr069Error`
(so no accepted result carrying the success transition is returned), and a
response with `Status = 0` returns the accepted result with the state's
done transition. -/
theorem waitDisableAdmin_nonzero_status_raises
    (done_transition : String) (status : Int) :
    (status ≠ 0 →
      CaviumWaitDisableAdminEnableState.read_msg done_transition
          (.setParameterValuesResponse status) =
        Except.error ⟨"Received SetParameterValuesResponse with " ++
          "Status=" ++ toString status⟩) ∧
    (status = 0 →
      CaviumWaitDisableAdminEnableState.read_msg done_transition
          (.setParameterValuesResponse status) =
        Except.ok ⟨true, some done_transition⟩) := by
  constructor
  · intro h
    simp only [CaviumWaitDisableAdminEnableState.read_msg]
    rw [if_pos h]
  · rintro rfl
    simp [CaviumWaitDisableAdminEnableState.read_msg]

/-- C3 (witness): instantiation at `Status = 1` and done transition
`'delete_objs'` (the Cavium wiring). -/
theorem waitDisableAdmin_nonzero_status_raises_witness :
    (1 : Int) ≠ 0 ∧
    CaviumWaitDisableAdminEnableState.read_msg "delete_objs"
        (.setParameterValuesResponse 1) =
      Except.error ⟨"Received SetParameterValuesResponse with Status=1"⟩ :=
  ⟨by decide, (waitDisableAdmin_nonzero_status_raises "delete_objs" 1).1 (by decide)⟩

/-- C4 (counterexample): for the Fault message with `FaultCode = "9001"`
and `FaultString = "Internal error"`, the error raised by
`CaviumWaitDisableAdminEnableState.read_msg` carries the fault string but
does NOT contain the fault code `"9001"` anywhere in its message, so the
claim that the raised protocol error carries both fields verbatim is
false. -/
theorem fault_error_lacks_fault_code :
    CaviumWaitDisableAdminEnableState.read_msg "delete_objs"
        (.fault ⟨"9001", "Internal error", none⟩) =
      Except.error ⟨"Received Fault in response to SetParameterValues (faultstring = Internal error)"⟩ ∧
    hasSubChars "9001".data
      "Received Fault in response to SetParameterValues (faultstring = Internal error)".data = false ∧
    hasSubChars "Internal error".data
      "Received Fault in response to SetParameterValues (faultstring = Internal error)".data = true :=
  ⟨rfl, rfl, rfl⟩

/-- C4 (amended): in `CaviumWaitDisableAdminEnableState.read_msg` the Fault
check happens before the expected-response type check — every inbound Fault
message raises a `Tr069Error`, never a rejected/accepted result — and the
raised error carries the fault's `FaultString` verbatim (the `FaultCode` is
only logged, not included in the error). -/
theorem fault_checked_first_error_carries_faultstring
    (done_transition : String) (f : FaultMsg) :
    ∃ e : Tr069Error,
      CaviumWaitDisableAdminEnableState.read_msg done_transition (.fault f) =
        Except.error e ∧
      hasSubChars f.FaultString.data e.message.data = true := by
  refine ⟨_, rfl, ?_⟩
  rw [hasSubChars_iff]
  exact ⟨("Received Fault in response to SetParameterValues " ++
          "(faultstring = ").data, ")".data, by
    simp [List.append_assoc]⟩

/-- C5: after `CaviumTrConfigurationInitializer.postprocess`, the desired
configuration maps `CELL_BARRED` to `True` and `ADMIN_STATE` to `True`,
regardless of the values the snapshot held for those keys beforehand. -/
theorem postprocess_forces_cell_barred_and_admin_state
    (cfg : List (ParameterName × ConfigValue)) :
    get_parameter_value (CaviumTrConfigurationInitializer.postprocess cfg)
        .CELL_BARRED = some (.b true) ∧
    get_parameter_value (CaviumTrConfigurationInitializer.postprocess cfg)
        .ADMIN_STATE = some (.b true) := by
  unfold get_parameter_value CaviumTrConfigurationInitializer.postprocess
  constructor
  · rw [lookup_set_parameter_ne _ _ _ (by decide)]
    exact lookup_set_parameter_self _ _ _
  · exact lookup_set_parameter_self _ _ _

/-- C6: `CaviumTrConfigurationInitializer.postprocess` is idempotent —
applying it twice yields the same snapshot as applying it once. -/
theorem postprocess_idempotent (cfg : List (ParameterName × ConfigValue)) :
    CaviumTrConfigurationInitializer.postprocess
        (CaviumTrConfigurationInitializer.postprocess cfg) =
      CaviumTrConfigurationInitializer.postprocess cfg := by
  unfold CaviumTrConfigurationInitializer.postprocess
  have h1 : (set_parameter .ADMIN_STATE (.b true)
      (set_parameter .CELL_BARRED (.b true) cfg)).lookup .CELL_BARRED =
      some (.b true) := by
    rw [lookup_set_parameter_ne .ADMIN_STATE .CELL_BARRED (.b true) (by decide)]
    exact lookup_set_parameter_self _ _ _
  rw [set_parameter_eq_of_lookup _ _ _ h1]
  exact set_parameter_eq_of_lookup _ _ _ (lookup_set_parameter_self _ _ _)

/-- C7: the Cavium catalog records `ADMIN_STATE` as non-readable
(write-only), and `CaviumDisableAdminEnableState.get_msg` emits a
`SetParameterValues` request containing exactly one parameter — the
`ADMIN_STATE` descriptor's path with the device-encoded value of `False`
(the pass-through encoding, rendered `"False"`) — whatever the registered
bandwidth transform `bw` and done transition are. -/
theorem admin_state_write_only_single_param_set :
    (CaviumTrDataModel.get_parameter .ADMIN_STATE).map TrParam.readable =
      some false ∧
    ∀ (bw : ConfigValue → ConfigValue) (done_transition : String),
      CaviumDisableAdminEnableState.get_msg bw done_transition =
        some ⟨⟨"cwmp:ParameterValueStruct[1]",
               [⟨"Device.Services.FAPService.1.FAPControl.LTE.AdminState",
                 "xsd:string", "False"⟩]⟩,
              some done_transition⟩ := by
  refine ⟨by decide, fun bw done_transition => ?_⟩
  simp only [CaviumDisableAdminEnableState.get_msg, get_parameter_ADMIN_STATE_eq,
    CaviumTrDataModel.transform_for_enb]
  rw [if_neg (by decide : ¬(ParameterName.ADMIN_STATE = ParameterName.DL_BANDWIDTH ∨
    ParameterName.ADMIN_STATE = ParameterName.UL_BANDWIDTH))]
  rfl

/-- C8: for every index `i` with `1 ≤ i ≤ get_num_plmns = 6`, the Cavium
catalog has an OBJECT-typed descriptor for the `i`-th PLMN entry, and
`get_numbered_param_names` maps that entry to exactly its 4 scalar child
keys (cell-reserved, enable, is-primary, PLMN ID), each of which has a
descriptor in the catalog. -/
theorem plmn_catalog_and_numbered_children (i : Nat) (h1 : 1 ≤ i)
    (h2 : i ≤ CaviumTrDataModel.get_num_plmns) :
    ((CaviumTrDataModel.get_parameter (.PLMN_N i)).map TrParam.ptype =
      some .OBJECT) ∧
    CaviumTrDataModel.get_numbered_param_names.lookup (.PLMN_N i) =
      some [.PLMN_N_CELL_RESERVED i, .PLMN_N_ENABLE i, .PLMN_N_PRIMARY i,
            .PLMN_N_PLMNID i] ∧
    ((CaviumTrDataModel.get_numbered_param_names.lookup (.PLMN_N i)).map
      List.length = some 4) ∧
    ∀ c ∈ [ParameterName.PLMN_N_CELL_RESERVED i, .PLMN_N_ENABLE i,
           .PLMN_N_PRIMARY i, .PLMN_N_PLMNID i],
      (CaviumTrDataModel.get_parameter c).isSome = true := by
  have h2' : i ≤ 6 := h2
  interval_cases i <;> exact (by decide)

/-- C8 (witness): instantiation at `i = 2`. -/
theorem plmn_catalog_and_numbered_children_witness :
    1 ≤ 2 ∧ 2 ≤ CaviumTrDataModel.get_num_plmns ∧
    ((CaviumTrDataModel.get_parameter (.PLMN_N 2)).map TrParam.ptype =
      some .OBJECT) :=
  ⟨by decide, by decide,
    (plmn_catalog_and_numbered_children 2 (by decide) (by decide)).1⟩

/-- C9: in the Cavium parameter catalog every `ParameterName` key maps to
exactly one descriptor (the inserted keys are pairwise distinct) and the
descriptor paths are pairwise distinct across the whole catalog, numbered
PLMN entries included. -/
theorem cavium_parameters_unique_keys_and_paths :
    (CaviumTrDataModel.PARAMETERS.map Prod.fst).Nodup ∧
    (CaviumTrDataModel.PARAMETERS.map (fun e => e.2.path)).Nodup :=
  ⟨caviumParameters_keys_nodup, caviumParameters_paths_nodup⟩

/-- C10: `CaviumTrDataModel.get_parameter` is total and never raises: for
every key it returns exactly the unique descriptor registered for that key
in `PARAMETERS` when one exists, and `none` for every key not present. -/
theorem get_parameter_total_and_correct (p : ParameterName) :
    (∀ d : TrParam,
      CaviumTrDataModel.get_parameter p = some d ↔
        (p, d) ∈ CaviumTrDataModel.PARAMETERS) ∧
    (CaviumTrDataModel.get_parameter p = none ↔
      p ∉ CaviumTrDataModel.PARAMETERS.map Prod.fst) := by
  refine ⟨fun d => ?_, ?_⟩
  · exact lookup_eq_some_iff_mem caviumParameters_keys_nodup
  · exact lookup_eq_none_iff_not_mem_keys
